import Mathlib

/-!
Shallow embedding of the Pointed library (src/include/Pointed.h).

The library provides `Single<T>` (an exclusive owner of a heap value that
remembers the head of an intrusive doubly-linked chain of observers) and
`Ref<T>` (a non-owning observer linked into that chain).  We model the heap
as a `World`: a map from addresses (naturals) to ref nodes, a map from
addresses to single nodes, and liveness lists for refs, singles and owned
values.  Each C++ member function is translated statement by statement.
`dynamic_cast` is modelled by an explicit function `castFn : Nat → Option Nat`
applied to non-null pointers (dynamic_cast of a null pointer is null).
Exceptions (`std::bad_cast`, `InvalidRefException`) are modelled with
`Except`.
-/

namespace Pointed

/-- The fields of a `Ref<T>` object: `pointer` (the observing pointer,
`T *pointer = nullptr`), `last` and `next` (the chain links,
`const mutable void *last/next = nullptr`).  Pointers are modelled as
`Option Nat`. -/
structure RefNode where
  pointer : Option Nat
  last : Option Nat
  next : Option Nat
deriving DecidableEq, Repr

/-- A default-constructed `Ref` (`Ref() { }` with the in-class
initializers): all three fields null. -/
def RefNode.empty : RefNode := ⟨none, none, none⟩

instance : Inhabited RefNode := ⟨RefNode.empty⟩

/-- The fields of a `Single<T>` object: `pointer` (the owned value) and
`top` (the chain head, `mutable void *top = nullptr`). -/
structure SingleNode where
  pointer : Option Nat
  top : Option Nat
deriving DecidableEq, Repr

/-- A `Single` holding no value and no chain head. -/
def SingleNode.empty : SingleNode := ⟨none, none⟩

instance : Inhabited SingleNode := ⟨SingleNode.empty⟩

/-- The program heap: ref objects and single objects by address, plus
liveness bookkeeping (which ref/single objects are currently alive, and
which owned values have not yet been `delete`d). -/
structure World where
  refs : Nat → RefNode
  liveRefs : List Nat
  singles : Nat → SingleNode
  liveSingles : List Nat
  liveVals : List Nat

/-- The world before any object is created. -/
def World.init : World :=
  ⟨fun _ => RefNode.empty, [], fun _ => SingleNode.empty, [], []⟩

/-- Store a ref node at address `a`. -/
def World.setRef (w : World) (a : Nat) (r : RefNode) : World :=
  { w with refs := fun b => if b = a then r else w.refs b }

/-- Store a single node at address `s`. -/
def World.setSingle (w : World) (s : Nat) (n : SingleNode) : World :=
  { w with singles := fun b => if b = s then n else w.singles b }

/-- `dynamic_cast<To*>(p)`: null maps to null, a non-null pointer is
resolved by the runtime type information, modelled by `castFn`. -/
def dynCast (castFn : Nat → Option Nat) : Option Nat → Option Nat
  | none => none
  | some v => castFn v

/-- `Ref<T>::nullify()`: `pointer = nullptr; last = nullptr; next = nullptr;` -/
def nullify (w : World) (a : Nat) : World :=
  w.setRef a RefNode.empty

/-- One unfolding of `Ref<T>::invalidate()`:
`nullify(); if (next) ((Ref<T>*)next)->invalidate();` —
note the code reads `next` only AFTER `nullify()` has run.  The `fuel`
argument only bounds the recursion depth so that the definition is total;
it does not occur in the source. -/
def invalidateAux : Nat → World → Nat → World
  | 0, w, _ => w
  | fuel + 1, w, a =>
    let w1 := nullify w a
    match (w1.refs a).next with
    | some b => invalidateAux fuel w1 b
    | none => w1

/-- `Ref<T>::invalidate()`, with enough fuel for any chain in the world. -/
def invalidate (w : World) (a : Nat) : World :=
  invalidateAux (w.liveRefs.length + 1) w a

/-- The first statement of `Ref<T>::delink()`:
`if (next) ((Ref<T>*)next)->last = last;` -/
def delinkStep1 (w : World) (a : Nat) : World :=
  match (w.refs a).next with
  | some b => w.setRef b { w.refs b with last := (w.refs a).last }
  | none => w

/-- `Ref<T>::delink()`: the first statement (`delinkStep1`) followed by
`if (last) ((Ref<T>*)last)->next = next;`, with each member of `this`
re-read from the heap at its point in the statement sequence. -/
def delink (w : World) (a : Nat) : World :=
  match ((delinkStep1 w a).refs a).last with
  | some b =>
    (delinkStep1 w a).setRef b
      { (delinkStep1 w a).refs b with next := ((delinkStep1 w a).refs a).next }
  | none => delinkStep1 w a

/-- `Ref<T>::~Ref()`: `delink();` and then the storage of the object is gone
(it is removed from the live set; its bytes are not cleared). -/
def destroyRef (w : World) (a : Nat) : World :=
  let w1 := delink w a
  { w1 with liveRefs := w1.liveRefs.erase a }

/-- `Ref<T>::operator=(const Ref<T>& other)` with `this` at address `a`
and `other` at address `b`:
`delink(); nullify(); pointer = other.pointer; next = (void*)&other;`
`if (other.last) { last = other.last; ((Ref<T>*)last)->next = (void*)this; }`
`other.last = (void*)this; return *this;` -/
def assignRef (w : World) (a b : Nat) : World :=
  let w1 := delink w a
  let w2 := nullify w1 a
  let w3 := w2.setRef a { w2.refs a with pointer := (w2.refs b).pointer }
  let w4 := w3.setRef a { w3.refs a with next := some b }
  let w5 :=
    match (w4.refs b).last with
    | some l =>
      let wl := w4.setRef a { w4.refs a with last := some l }
      wl.setRef l { wl.refs l with next := some a }
    | none => w4
  w5.setRef b { w5.refs b with last := some a }

/-- `Ref<T>::operator=(const Single<T>& single)` with `this` at address `a`
and `single` at address `s`:
`delink(); nullify(); pointer = single.pointer;`
`if (single.top) { next = (void*)single.top; ((Ref<T>*)single.top)->last = this; }`
`single.top = (void*)this; return *this;` -/
def assignRefSingle (w : World) (a s : Nat) : World :=
  let w1 := delink w a
  let w2 := nullify w1 a
  let w3 := w2.setRef a { w2.refs a with pointer := (w2.singles s).pointer }
  let w4 :=
    match (w3.singles s).top with
    | some t =>
      let wt := w3.setRef a { w3.refs a with next := some t }
      wt.setRef t { wt.refs t with last := some a }
    | none => w3
  w4.setSingle s { w4.singles s with top := some a }

/-- Construction of a fresh `Ref<T>` object at address `a`
(`Ref() { }` plus the in-class initializers): the node starts with all
fields null and becomes live. -/
def newRef (w : World) (a : Nat) : World :=
  { w.setRef a RefNode.empty with liveRefs := a :: w.liveRefs }

/-- `Ref(const Ref<T>& other) { operator=(other); }`: default-construct at
the fresh address `a`, then copy-assign from `b`. -/
def copyRef (w : World) (a b : Nat) : World :=
  assignRef (newRef w a) a b

/-- `Ref(const Single<T>& single) { operator=(single); }`: default-construct
at the fresh address `a`, then assign from the single at `s`. -/
def refFromSingle (w : World) (a s : Nat) : World :=
  assignRefSingle (newRef w a) a s

/-- `my<T>(args...)` = `Single<T>(new T(args...))`: a fresh single at
address `s` taking ownership of a newly allocated value `v`; `top` starts
null from its in-class initializer. -/
def newSingle (w : World) (s v : Nat) : World :=
  { w.setSingle s ⟨some v, none⟩ with
      liveSingles := s :: w.liveSingles
      liveVals := v :: w.liveVals }

/-- `Single<T>::Single(Single<T>&& other)`: member-initializers copy
`pointer` and `top` from the source at `s` into the fresh single at `d`,
then the body nulls the fields of the source. -/
def moveSingle (w : World) (d s : Nat) : World :=
  let w1 := w.setSingle d ⟨(w.singles s).pointer, (w.singles s).top⟩
  let w2 := { w1 with liveSingles := d :: w1.liveSingles }
  w2.setSingle s ⟨none, none⟩

/-- `template<class O> Single<T>::Single(Single<O>&& other)`:
the in-class initializer sets `top` of the new object to null, then the body
runs `pointer = dynamic_cast<T*>(other.pointer); if (!pointer) throw
std::bad_cast();` — on the throw the half-constructed destination is
discarded and the world at the throw point is returned as the error —
otherwise `top = other.top; other.pointer = nullptr; other.top = nullptr;`. -/
def moveSingleCast (w : World) (d s : Nat) (castFn : Nat → Option Nat) :
    Except World World :=
  let w1 := w.setSingle d ⟨none, none⟩
  let p := dynCast castFn (w1.singles s).pointer
  let w2 := w1.setSingle d { w1.singles d with pointer := p }
  match p with
  | none => Except.error w2
  | some _ =>
    let w3 := w2.setSingle d { w2.singles d with top := (w2.singles s).top }
    let w4 := { w3 with liveSingles := d :: w3.liveSingles }
    let w5 := w4.setSingle s { w4.singles s with pointer := none }
    Except.ok (w5.setSingle s { w5.singles s with top := none })

/-- `Single<T>::~Single()`: `delete pointer;` (the owned value, if any,
stops being live; `delete nullptr` is a no-op) then
`if (top) ((Ref<T>*)top)->invalidate();`, and the single itself dies. -/
def destroySingle (w : World) (s : Nat) : World :=
  let w1 :=
    match (w.singles s).pointer with
    | some v => { w with liveVals := w.liveVals.erase v }
    | none => w
  let w2 :=
    match (w1.singles s).top with
    | some t => invalidate w1 t
    | none => w1
  { w2 with liveSingles := w2.liveSingles.erase s }

/-- `RefCast<To, From>(const Ref<From>& ref)` producing its result at the
fresh address `c` from the source ref at `b`:
`To *pointerNew = dynamic_cast<To*>(ref.pointer);`
`if (pointerNew) { Ref<To> result; result.pointer = pointerNew;`
`result.next = (void*)&ref; if (ref.last) { result.last = ref.last;`
`((Ref<From>*)result.last)->next = (void*)(&result); }`
`ref.last = (void*)(&result); return result; }`
`else { return NullRef<To>(); }` -/
def refCast (w : World) (c b : Nat) (castFn : Nat → Option Nat) : World :=
  let pNew := dynCast castFn ((w.refs b).pointer)
  match pNew with
  | some p =>
    let w1 := newRef w c
    let w2 := w1.setRef c { w1.refs c with pointer := some p }
    let w3 := w2.setRef c { w2.refs c with next := some b }
    let w4 :=
      match (w3.refs b).last with
      | some l =>
        let wl := w3.setRef c { w3.refs c with last := some l }
        wl.setRef l { wl.refs l with next := some c }
      | none => w3
    w4.setRef b { w4.refs b with last := some c }
  | none => newRef w c

/-- `Ref<T>::operator*` / `operator->`: `if (!pointer) throw
InvalidRefException(); return pointer;` — the error value models the
exception. -/
def derefRef (w : World) (a : Nat) : Except Unit Nat :=
  match (w.refs a).pointer with
  | none => Except.error ()
  | some p => Except.ok p

/-- `Ref<T>::operator bool()`: `return pointer != nullptr;` -/
def refValid (w : World) (a : Nat) : Bool :=
  ((w.refs a).pointer).isSome

/-- A ref node is linked into some observation chain: one of its own chain
links is set, or the chain head of some live single points at it. -/
def isLinked (w : World) (a : Nat) : Bool :=
  ((w.refs a).last).isSome || ((w.refs a).next).isSome ||
    w.liveSingles.any fun s => (w.singles s).top == some a

/-! Concrete scenario worlds, used to instantiate the theorems below. -/

/-- Scenario: one owner at address 0 holding a freshly allocated value 7. -/
def scnOwner : World := newSingle World.init 0 7

/-- Scenario: additionally one ref at address 1 bound to the owner, so the
chain head of the owner is ref 1. -/
def scnBound : World := refFromSingle scnOwner 1 0

/-- Scenario: two refs, at addresses 1 and 2, bound to the owner at 0; the
chain runs top = 2, then 2.next = 1. -/
def scnTwo : World := refFromSingle scnBound 2 0

/-- Scenario: three refs 1, 2, 3 bound to the owner at 0; the chain runs
top = 3, 3.next = 2, 2.next = 1. -/
def scnThree : World := refFromSingle scnTwo 3 0

/-- Scenario: one default-constructed, never-bound ref at address 0. -/
def scnEmptyRef : World := newRef World.init 0

/-- A runtime-type oracle under which every cast succeeds without pointer
adjustment (the observed value has the target dynamic type). -/
def castOk : Nat → Option Nat := fun v => some v

/-- A runtime-type oracle under which every cast fails (the observed value
is unrelated to the target type). -/
def castFail : Nat → Option Nat := fun _ => none

/-! Simp lemmas relating heap updates to heap reads. -/

@[simp] theorem setRef_refs (w : World) (a b : Nat) (r : RefNode) :
    (w.setRef a r).refs b = if b = a then r else w.refs b := rfl

@[simp] theorem setRef_singles (w : World) (a : Nat) (r : RefNode) :
    (w.setRef a r).singles = w.singles := rfl

@[simp] theorem setRef_liveRefs (w : World) (a : Nat) (r : RefNode) :
    (w.setRef a r).liveRefs = w.liveRefs := rfl

@[simp] theorem setRef_liveSingles (w : World) (a : Nat) (r : RefNode) :
    (w.setRef a r).liveSingles = w.liveSingles := rfl

@[simp] theorem setRef_liveVals (w : World) (a : Nat) (r : RefNode) :
    (w.setRef a r).liveVals = w.liveVals := rfl

@[simp] theorem setSingle_singles (w : World) (s b : Nat) (n : SingleNode) :
    (w.setSingle s n).singles b = if b = s then n else w.singles b := rfl

@[simp] theorem setSingle_refs (w : World) (s : Nat) (n : SingleNode) :
    (w.setSingle s n).refs = w.refs := rfl

@[simp] theorem setSingle_liveRefs (w : World) (s : Nat) (n : SingleNode) :
    (w.setSingle s n).liveRefs = w.liveRefs := rfl

@[simp] theorem setSingle_liveSingles (w : World) (s : Nat) (n : SingleNode) :
    (w.setSingle s n).liveSingles = w.liveSingles := rfl

@[simp] theorem setSingle_liveVals (w : World) (s : Nat) (n : SingleNode) :
    (w.setSingle s n).liveVals = w.liveVals := rfl

@[simp] theorem dynCast_none (castFn : Nat → Option Nat) :
    dynCast castFn none = none := rfl

@[simp] theorem newRef_refs (w : World) (a b : Nat) :
    (newRef w a).refs b = if b = a then RefNode.empty else w.refs b := by
  simp [newRef]

@[simp] theorem newRef_liveRefs (w : World) (a : Nat) :
    (newRef w a).liveRefs = a :: w.liveRefs := rfl

@[simp] theorem newRef_singles (w : World) (a : Nat) :
    (newRef w a).singles = w.singles := rfl

@[simp] theorem newRef_liveSingles (w : World) (a : Nat) :
    (newRef w a).liveSingles = w.liveSingles := rfl

/-- Delinking a ref whose node is entirely null is a no-op (both guards of
`Ref::delink` fail). -/
theorem delink_of_empty (w : World) (a : Nat) (h : w.refs a = RefNode.empty) :
    delink w a = w := by
  simp [delink, delinkStep1, h, RefNode.empty]

/-- The first delink statement writes only the `last` field of the next
neighbor, so the node being delinked reads back unchanged (also when it is
its own next neighbor, by structure eta). -/
theorem delinkStep1_refs_self (w : World) (a : Nat) :
    (delinkStep1 w a).refs a = w.refs a := by
  unfold delinkStep1
  rcases hn : (w.refs a).next with _ | nb
  · rfl
  · by_cases hab : a = nb
    · subst hab
      simp
    · simp [hab]

/-- The first delink statement never changes any observing pointer. -/
theorem delinkStep1_pointer (w : World) (a b : Nat) :
    ((delinkStep1 w a).refs b).pointer = (w.refs b).pointer := by
  unfold delinkStep1
  rcases hn : (w.refs a).next with _ | nb
  · rfl
  · by_cases hb : b = nb
    · subst hb
      simp
    · simp [hb]

/-- `Ref::delink` never changes any observing pointer. -/
theorem delink_pointer (w : World) (a b : Nat) :
    ((delink w a).refs b).pointer = (w.refs b).pointer := by
  unfold delink
  rcases hl : ((delinkStep1 w a).refs a).last with _ | lb
  · exact delinkStep1_pointer w a b
  · by_cases hb : b = lb
    · subst hb
      simp [delinkStep1_pointer]
    · simp [hb, delinkStep1_pointer]

/-- The first delink statement leaves the live-ref list unchanged. -/
theorem delinkStep1_liveRefs (w : World) (a : Nat) :
    (delinkStep1 w a).liveRefs = w.liveRefs := by
  unfold delinkStep1
  rcases hn : (w.refs a).next with _ | nb
  · rfl
  · rfl

/-- `Ref::delink` leaves the live-ref list unchanged. -/
theorem delink_liveRefs (w : World) (a : Nat) :
    (delink w a).liveRefs = w.liveRefs := by
  unfold delink
  rcases hl : ((delinkStep1 w a).refs a).last with _ | lb
  · exact delinkStep1_liveRefs w a
  · simp [delinkStep1_liveRefs]

/-- `Ref::delink` leaves every node other than the two neighbors of the
delinked node untouched. -/
theorem delink_frame (w : World) (a b : Nat)
    (hn : (w.refs a).next ≠ some b) (hl : (w.refs a).last ≠ some b) :
    (delink w a).refs b = w.refs b := by
  have h1 : (delinkStep1 w a).refs b = w.refs b := by
    unfold delinkStep1
    rcases hn2 : (w.refs a).next with _ | nb
    · rfl
    · have hbn : ¬ (b = nb) := fun hh => hn (hh ▸ hn2)
      simp [hbn]
  unfold delink
  rw [delinkStep1_refs_self]
  rcases hl2 : (w.refs a).last with _ | lb
  · exact h1
  · have hbl : ¬ (b = lb) := fun hh => hl (hh ▸ hl2)
    simp [hbl, h1]

/-- When a node with two distinct neighbors (neither of them itself) is
delinked, each neighbor ends up linked to the other and is otherwise
unchanged. -/
theorem delink_neighbors (w : World) (a nb lb : Nat)
    (hn : (w.refs a).next = some nb) (hl : (w.refs a).last = some lb)
    (hnl : nb ≠ lb) :
    (delink w a).refs nb = { w.refs nb with last := some lb } ∧
    (delink w a).refs lb = { w.refs lb with next := some nb } := by
  have h1 : delinkStep1 w a = w.setRef nb { w.refs nb with last := some lb } := by
    unfold delinkStep1
    rw [hn, hl]
  have hln : ¬ (lb = nb) := fun hh => hnl hh.symm
  unfold delink
  rw [delinkStep1_refs_self, hl, hn, h1]
  constructor
  · simp [hnl, hln]
  · simp [hnl, hln]

/-- C1: claimed — destroying an Owner with N bound References invalidates
all N, the walk reading each next link before clearing the node.  The code
does the opposite: `Ref::invalidate` runs `nullify()` first, which clears
`next`, so the subsequent `if (next)` test always fails and the walk stops
after the chain head.  At the concrete failing input (owner 0 owning value
7, refs 1 and 2 bound, chain top = 2 then 1): after the owner is destroyed,
ref 2 (the head) is invalid, but ref 1 still reports valid and dereferences
to the already-deleted value 7. -/
theorem C1_invalidate_truncates_at_chain_head :
    refValid (destroySingle scnTwo 0) 2 = false ∧
    refValid (destroySingle scnTwo 0) 1 = true ∧
    derefRef (destroySingle scnTwo 0) 1 = Except.ok 7 ∧
    (destroySingle scnTwo 0).liveVals.contains 7 = false :=
  ⟨rfl, rfl, rfl, rfl⟩

/-- C2: claimed — a successful RefCast result is invalidated together with
the source when the owner is destroyed, including when the source is the
chain head.  In the code, when the source is the chain head the cast result
is linked head-side of the source (`result.next = &ref; ref.last = &result`)
but the owner top is not updated, so the result is unreachable from the
owner walk; combined with the truncated `invalidate`, destroying the owner
nullifies only the original head.  Concretely (owner 0 owning 7, ref 1
bound as head, cast result at 2): after owner destruction ref 1 is invalid,
yet the cast result 2 still reports valid and dereferences the deleted
value 7. -/
theorem C2_cast_of_chain_head_survives_owner_destruction :
    refValid (destroySingle (refCast scnBound 2 1 castOk) 0) 2 = true ∧
    refValid (destroySingle (refCast scnBound 2 1 castOk) 0) 1 = false ∧
    derefRef (destroySingle (refCast scnBound 2 1 castOk) 0) 2 = Except.ok 7 ∧
    (destroySingle (refCast scnBound 2 1 castOk) 0).liveVals.contains 7 = false :=
  ⟨rfl, rfl, rfl, rfl⟩

/-- C9: claimed — whenever an Owner chain head is non-null it refers to a
currently-live Reference, and destroying a Reference (including the one the
chain head refers to) preserves this.  The code violates it: `Ref::~Ref`
only calls `delink()`, which fixes the neighbor links but never clears the
owner `top`.  Concretely (owner 0, single bound ref 1): after ref 1 is
destroyed, the owner top still holds address 1 while ref 1 is no longer
live, so a later owner destruction would call `invalidate` through a
dangling pointer. -/
theorem C9_top_dangles_after_head_ref_destroyed :
    ((destroyRef scnBound 1).singles 0).top = some 1 ∧
    (destroyRef scnBound 1).liveRefs.contains 1 = false := by
  decide

/-- C10: self-assignment `r = r` leaves the Reference empty — in
`Ref::operator=` the `nullify()` runs before `pointer = other.pointer` is
read, and `this == &other`, so the observing pointer becomes null, the
boolean conversion returns false, and dereference raises
`InvalidRefException`. -/
theorem C10_self_assignment_empties (w : World) (a : Nat) :
    ((assignRef w a a).refs a).pointer = none ∧
    refValid (assignRef w a a) a = false ∧
    derefRef (assignRef w a a) a = Except.error () := by
  have h : ((assignRef w a a).refs a).pointer = none := by
    unfold assignRef
    generalize delink w a = w1
    simp [nullify, RefNode.empty]
  exact ⟨h, by simp [refValid, h], by simp [derefRef, h]⟩

/-- C7: dereference raises `InvalidRefException` iff the observing pointer
is null; the boolean conversion is true iff it is non-null; and on a
non-null pointer dereference returns the observed value and raises
nothing. -/
theorem C7_deref_and_validity (w : World) (a : Nat) :
    (derefRef w a = Except.error () ↔ (w.refs a).pointer = none) ∧
    (refValid w a = true ↔ (w.refs a).pointer ≠ none) ∧
    (∀ p, (w.refs a).pointer = some p →
      derefRef w a = Except.ok p ∧ refValid w a = true) := by
  rcases h : (w.refs a).pointer with _ | p
  · simp [derefRef, refValid, h]
  · simp [derefRef, refValid, h]

/-- C7 witness: instantiated at the bound ref 1 of `scnBound`, whose
observing pointer is `some 7`. -/
theorem C7_deref_and_validity_witness :
    (scnBound.refs 1).pointer = some 7 ∧
    derefRef scnBound 1 = Except.ok 7 ∧ refValid scnBound 1 = true :=
  ⟨rfl, (C7_deref_and_validity scnBound 1).2.2 7 rfl⟩

/-- C4 counterexample: the claim says copy-constructing from an empty
Reference produces an empty, unlinked Reference, and that the observing
pointer is non-null iff the Reference is linked.  In the code
`Ref::operator=` links to the source unconditionally: copying the empty
ref 0 into ref 1 leaves ref 1 with a null observing pointer, yet ref 1 is
linked (`1.next = 0`), so the produced Reference is not unlinked and the
iff fails. -/
theorem C4_counterexample_copy_from_empty_still_linked :
    ((copyRef scnEmptyRef 1 0).refs 1).pointer = none ∧
    refValid (copyRef scnEmptyRef 1 0) 1 = false ∧
    ((copyRef scnEmptyRef 1 0).refs 1).next = some 0 ∧
    isLinked (copyRef scnEmptyRef 1 0) 1 = true := by
  decide

/-- C4 (amended): copy-constructing or copy-assigning a fresh Reference `a`
from an empty Reference `b` produces a Reference that reports invalid (null
observing pointer, false boolean conversion) but is nonetheless linked: its
next link points at the source and the source last link points back at it,
so a null observing pointer does not imply being unlinked. -/
theorem C4_copy_from_empty_linked_not_unlinked (w : World) (a b : Nat)
    (hab : a ≠ b) (hp : (w.refs b).pointer = none)
    (hl : (w.refs b).last ≠ some a) :
    ((copyRef w a b).refs a).pointer = none ∧
    refValid (copyRef w a b) a = false ∧
    ((copyRef w a b).refs a).next = some b ∧
    ((copyRef w a b).refs b).last = some a ∧
    isLinked (copyRef w a b) a = true := by
  have hba : ¬ (b = a) := fun h => hab h.symm
  unfold copyRef assignRef
  rw [delink_of_empty _ _ (by simp : (newRef w a).refs a = RefNode.empty)]
  rcases hbl : (w.refs b).last with _ | l
  · simp [nullify, hab, hba, hp, hbl, refValid, isLinked, RefNode.empty]
  · have hla : ¬ (l = a) := fun h => hl (h ▸ hbl)
    have hal : ¬ (a = l) := fun h => hla h.symm
    simp [nullify, hab, hba, hla, hal, hp, hbl, refValid, isLinked,
      RefNode.empty]

/-- C4 witness: the amended statement instantiated at the concrete
empty-source scenario (source ref 0, destination ref 1). -/
theorem C4_copy_from_empty_linked_not_unlinked_witness :
    (1 : Nat) ≠ 0 ∧ (scnEmptyRef.refs 0).pointer = none ∧
    (scnEmptyRef.refs 0).last ≠ some 1 ∧
    (((copyRef scnEmptyRef 1 0).refs 1).pointer = none ∧
     refValid (copyRef scnEmptyRef 1 0) 1 = false ∧
     ((copyRef scnEmptyRef 1 0).refs 1).next = some 0 ∧
     ((copyRef scnEmptyRef 1 0).refs 0).last = some 1 ∧
     isLinked (copyRef scnEmptyRef 1 0) 1 = true) :=
  ⟨by decide, by decide, by decide,
   C4_copy_from_empty_linked_not_unlinked scnEmptyRef 1 0 (by decide)
     (by decide) (by decide)⟩

/-- C5: same-type move-construction transfers the value pointer and chain
head to the destination, leaves every ref node untouched (so all existing
References keep their validity and observed value), empties the source
Owner, and destroying the moved-from Owner afterwards only retires the
Owner object itself — it deletes no value and invalidates no Reference. -/
theorem C5_move_transfer (w : World) (d s : Nat) (hds : d ≠ s) :
    (moveSingle w d s).singles d = w.singles s ∧
    (moveSingle w d s).singles s = SingleNode.empty ∧
    (moveSingle w d s).refs = w.refs ∧
    (∀ a, refValid (moveSingle w d s) a = refValid w a) ∧
    (∀ a, derefRef (moveSingle w d s) a = derefRef w a) ∧
    destroySingle (moveSingle w d s) s =
      { moveSingle w d s with
          liveSingles := (moveSingle w d s).liveSingles.erase s } ∧
    (∀ a, refValid (destroySingle (moveSingle w d s) s) a = refValid w a) := by
  have hsd : ¬ (s = d) := fun h => hds h.symm
  have hd : (moveSingle w d s).singles d = w.singles s := by
    simp [moveSingle, hds]
  have hs : (moveSingle w d s).singles s = SingleNode.empty := by
    simp [moveSingle, SingleNode.empty]
  have hr : (moveSingle w d s).refs = w.refs := rfl
  have hdestroy : destroySingle (moveSingle w d s) s =
      { moveSingle w d s with
          liveSingles := (moveSingle w d s).liveSingles.erase s } := by
    simp only [destroySingle, hs, SingleNode.empty]
  exact ⟨hd, hs, hr, fun a => rfl, fun a => rfl, hdestroy, fun a => by
    rw [hdestroy]; rfl⟩

/-- C5 witness: instantiated with the bound scenario, moving the owner at 0
into a fresh single at 5. -/
theorem C5_move_transfer_witness :
    (5 : Nat) ≠ 0 ∧
    ((moveSingle scnBound 5 0).singles 5 = scnBound.singles 0 ∧
     (moveSingle scnBound 5 0).singles 0 = SingleNode.empty ∧
     (moveSingle scnBound 5 0).refs = scnBound.refs ∧
     (∀ a, refValid (moveSingle scnBound 5 0) a = refValid scnBound a) ∧
     (∀ a, derefRef (moveSingle scnBound 5 0) a = derefRef scnBound a) ∧
     destroySingle (moveSingle scnBound 5 0) 0 =
       { moveSingle scnBound 5 0 with
           liveSingles := (moveSingle scnBound 5 0).liveSingles.erase 0 } ∧
     (∀ a, refValid (destroySingle (moveSingle scnBound 5 0) 0) a =
        refValid scnBound a)) :=
  ⟨by decide, C5_move_transfer scnBound 5 0 (by decide)⟩

/-- C3: the cross-type move-construction raises (models `std::bad_cast`,
the CastFailure of the spec) exactly when the runtime check on the source
value fails, and on failure the source Owner — and every ref node — is left
fully unchanged; on success the destination receives the cast value pointer
and the chain head and the source becomes empty. -/
theorem C3_cross_type_move_strong_safety (w : World) (d s : Nat)
    (castFn : Nat → Option Nat) (hds : d ≠ s) :
    ((∃ w2, moveSingleCast w d s castFn = Except.error w2) ↔
      dynCast castFn ((w.singles s).pointer) = none) ∧
    (∀ w2, moveSingleCast w d s castFn = Except.error w2 →
      w2.singles s = w.singles s ∧ w2.refs = w.refs ∧
      w2.liveVals = w.liveVals ∧ w2.liveRefs = w.liveRefs) ∧
    (∀ w2 p, moveSingleCast w d s castFn = Except.ok w2 →
      dynCast castFn ((w.singles s).pointer) = some p →
      w2.singles d = ⟨some p, (w.singles s).top⟩ ∧
      w2.singles s = SingleNode.empty) := by
  have hsd : ¬ (s = d) := fun h => hds h.symm
  rcases h : dynCast castFn ((w.singles s).pointer) with _ | p
  · have hE : moveSingleCast w d s castFn =
        Except.error ((w.setSingle d ⟨none, none⟩).setSingle d ⟨none, none⟩) := by
      unfold moveSingleCast
      simp [hsd, h]
    refine ⟨⟨fun _ => rfl, fun _ => ⟨_, hE⟩⟩, fun w2 h2 => ?_, fun w2 p h2 _ => ?_⟩
    · rw [hE] at h2
      injection h2 with h2
      subst h2
      exact ⟨by simp [hsd], rfl, rfl, rfl⟩
    · rw [hE] at h2
      exact Except.noConfusion h2
  · have hok : ∀ w2, moveSingleCast w d s castFn = Except.ok w2 →
        w2.singles d = ⟨some p, (w.singles s).top⟩ ∧
        w2.singles s = SingleNode.empty := by
      intro w2 h2
      unfold moveSingleCast at h2
      simp [hsd, h] at h2
      subst h2
      exact ⟨by simp [hds, hsd], by simp [hsd, SingleNode.empty]⟩
    have hnoerr : ∀ w2, moveSingleCast w d s castFn ≠ Except.error w2 := by
      intro w2 h2
      unfold moveSingleCast at h2
      simp [hsd, h] at h2
    refine ⟨⟨fun ⟨w2, h2⟩ => absurd h2 (hnoerr w2), fun h2 => by simp [h] at h2⟩,
      fun w2 h2 => absurd h2 (hnoerr w2), fun w2 q h2 hq => ?_⟩
    injection hq with hq
    subst hq
    exact hok w2 h2

/-- C3 witness: the failure side with an always-failing runtime check, and
(inside the instantiated conclusion) the success side, at the bound
scenario. -/
theorem C3_cross_type_move_strong_safety_witness :
    (5 : Nat) ≠ 0 ∧
    (((∃ w2, moveSingleCast scnBound 5 0 castFail = Except.error w2) ↔
       dynCast castFail ((scnBound.singles 0).pointer) = none) ∧
     (∀ w2, moveSingleCast scnBound 5 0 castFail = Except.error w2 →
       w2.singles 0 = scnBound.singles 0 ∧ w2.refs = scnBound.refs ∧
       w2.liveVals = scnBound.liveVals ∧ w2.liveRefs = scnBound.liveRefs) ∧
     (∀ w2 p, moveSingleCast scnBound 5 0 castFail = Except.ok w2 →
       dynCast castFail ((scnBound.singles 0).pointer) = some p →
       w2.singles 5 = ⟨some p, (scnBound.singles 0).top⟩ ∧
       w2.singles 0 = SingleNode.empty)) :=
  ⟨by decide, C3_cross_type_move_strong_safety scnBound 5 0 castFail (by decide)⟩

/-- C8: when the runtime check fails (which includes the case of an already
empty source, since a null pointer casts to null), `RefCast` returns the
world extended with just a fresh null ref: the result is an empty To-typed
ref that reports invalid and raises on dereference.  The operation is a
total function into `World` — unlike the Owner cast it has no error
outcome, mirroring that `RefCast` contains no throw. -/
theorem C8_refcast_failure_yields_empty (w : World) (c b : Nat)
    (castFn : Nat → Option Nat)
    (h : dynCast castFn ((w.refs b).pointer) = none) :
    refCast w c b castFn = newRef w c ∧
    (refCast w c b castFn).refs c = RefNode.empty ∧
    refValid (refCast w c b castFn) c = false ∧
    derefRef (refCast w c b castFn) c = Except.error () ∧
    ((w.refs b).pointer = none → dynCast castFn ((w.refs b).pointer) = none) := by
  have h1 : refCast w c b castFn = newRef w c := by
    unfold refCast
    rw [h]
  refine ⟨h1, ?_, ?_, ?_, fun _ => h⟩
  · rw [h1]; simp
  · rw [h1]; simp [refValid, RefNode.empty]
  · rw [h1]; simp [derefRef, RefNode.empty]

/-- C8 witness: casting the bound ref 1 with an always-failing runtime
check produces the empty ref 2. -/
theorem C8_refcast_failure_yields_empty_witness :
    dynCast castFail ((scnBound.refs 1).pointer) = none ∧
    (refCast scnBound 2 1 castFail = newRef scnBound 2 ∧
     (refCast scnBound 2 1 castFail).refs 2 = RefNode.empty ∧
     refValid (refCast scnBound 2 1 castFail) 2 = false ∧
     derefRef (refCast scnBound 2 1 castFail) 2 = Except.error () ∧
     ((scnBound.refs 1).pointer = none →
       dynCast castFail ((scnBound.refs 1).pointer) = none)) :=
  ⟨rfl, C8_refcast_failure_yields_empty scnBound 2 1 castFail rfl⟩

/-- C6: destroying one Reference among several bound to the same Owner
removes only itself from the chain: no observing pointer changes (so every
other ref keeps its validity and observed value), nodes other than the two
immediate neighbors are untouched, the two neighbors are relinked to each
other with only a link field mutated, and the destroyed ref alone leaves
the live set. -/
theorem C6_destroy_ref_noninterference (w : World) (a : Nat) :
    (∀ b, ((destroyRef w a).refs b).pointer = (w.refs b).pointer) ∧
    (∀ b, refValid (destroyRef w a) b = refValid w b) ∧
    (∀ b, derefRef (destroyRef w a) b = derefRef w b) ∧
    (∀ b, b ≠ a → (w.refs a).next ≠ some b → (w.refs a).last ≠ some b →
      (destroyRef w a).refs b = w.refs b) ∧
    (∀ nb lb, (w.refs a).next = some nb → (w.refs a).last = some lb →
      nb ≠ a → lb ≠ a → nb ≠ lb →
      (destroyRef w a).refs nb = { w.refs nb with last := some lb } ∧
      (destroyRef w a).refs lb = { w.refs lb with next := some nb }) ∧
    (destroyRef w a).liveRefs = w.liveRefs.erase a := by
  have hp : ∀ b, ((destroyRef w a).refs b).pointer = (w.refs b).pointer :=
    fun b => delink_pointer w a b
  refine ⟨hp, fun b => ?_, fun b => ?_, ?_, ?_, ?_⟩
  · unfold refValid
    rw [hp b]
  · unfold derefRef
    rw [hp b]
  · exact fun b _ hn hl => delink_frame w a b hn hl
  · exact fun nb lb hn hl _ _ hnl => delink_neighbors w a nb lb hn hl hnl
  · show (delink w a).liveRefs.erase a = w.liveRefs.erase a
    rw [delink_liveRefs]

/-- C6 witness: in the three-ref chain (top = 3, 3.next = 2, 2.next = 1),
destroying the middle ref 2 relinks refs 3 and 1 to each other. -/
theorem C6_destroy_ref_noninterference_witness :
    (destroyRef scnThree 2).refs 1 = { scnThree.refs 1 with last := some 3 } ∧
    (destroyRef scnThree 2).refs 3 = { scnThree.refs 3 with next := some 1 } :=
  (C6_destroy_ref_noninterference scnThree 2).2.2.2.2.1 1 3 (by decide)
    (by decide) (by decide) (by decide) (by decide)

end Pointed
